import Mathlib

/-!
Verification of the query-execution lifecycle of
`AmazonAthenaRetriever._get_relevant_documents` in
`custom_database_retriever.py`: submit a query, poll its status under a
budget of 20 attempts with a two-tier sleep schedule, fetch the rows on
success, and shape the output as a data document followed by a metadata
document.  External collaborators (the Athena client) are modelled as a
record of injectable responses; exceptions are modelled with `Except`.
-/

/-- A retrieved document: page content plus string-valued metadata pairs
(the embedding of langchain `Document(page_content=..., metadata=...)`). -/
structure Document where
  page_content : String
  metadata : List (String × String)
  deriving DecidableEq

/-- The Athena client operations one retrieval call uses.
`start_query_execution` yields the execution id, or an error when the call
raises; `get_query_execution` yields, for the i-th status poll, the value of
`QueryExecution.Status.State` when the expected nested fields are present and
`none` for a malformed response; `get_query_results` yields the rows of
`ResultSet.Rows` (each row the list of its `VarCharValue` cells), or an
error when the call raises. -/
structure AthenaClient where
  start_query_execution : Except String String
  get_query_execution : Nat → Option String
  get_query_results : Except String (List (List String))

/-- The mutable variables of the polling loop: `state`, `fetch_results`,
the number of status polls made so far, and the sleep durations so far. -/
structure LoopState where
  state : String
  fetch_results : Bool
  polls : Nat
  sleeps : List ℚ
  deriving DecidableEq

/-- Sleep duration chosen after the decrement, when `max_execution` has the
value `m`: `time.sleep(3)` if `m % 5 == 0` else `time.sleep(0.5)`. -/
def sleepFor (m : Nat) : ℚ :=
  if m % 5 = 0 then 3 else 1 / 2

/-- The sequence of sleep durations a run of `n` consecutive iterations
produces when the loop enters with `max_execution = n` and never exits
early: the first iteration decrements `max_execution` to `n - 1` and sleeps
`sleepFor (n - 1)`, and so on down to `sleepFor 0`. -/
def sleepSchedule : Nat → List ℚ
  | 0 => []
  | m + 1 => sleepFor m :: sleepSchedule m

/-- The `while max_execution > 0 and fetch_results == False` loop.  The
fuel argument is `max_execution`.  Each iteration decrements the budget,
polls, copies a present `State` field into `state` (setting
`fetch_results` when it equals `"SUCCEEDED"`), leaves `state` unchanged on
a malformed response, and sleeps according to the decremented budget. -/
def pollLoop (poll : Nat → Option String) : Nat → LoopState → LoopState
  | 0, s => s
  | m + 1, s =>
    if s.fetch_results then s
    else
      match poll s.polls with
      | some st =>
        pollLoop poll m
          { state := st
            fetch_results := s.fetch_results || (st == "SUCCEEDED")
            polls := s.polls + 1
            sleeps := s.sleeps ++ [sleepFor m] }
      | none =>
        pollLoop poll m
          { state := s.state
            fetch_results := s.fetch_results
            polls := s.polls + 1
            sleeps := s.sleeps ++ [sleepFor m] }

/-- The loop variables as initialised before the loop:
`state = "RUNNING"`, `max_execution = 20` (the fuel), `fetch_results = False`. -/
def initLoopState : LoopState :=
  { state := "RUNNING", fetch_results := false, polls := 0, sleeps := [] }

/-- Serialisation of one row: `f"[{', '.join(values)}]"`. -/
def rowString (row : List String) : String :=
  "[" ++ String.intercalate ", " row ++ "]"

/-- The accumulation `value_str += f"[{', '.join(values)}]"` over all rows,
starting from the empty string. -/
def rowsString (rows : List (List String)) : String :=
  rows.foldl (fun acc row => acc ++ rowString row) ""

/-- Content of the data document: the serialised rows when `athenaResults`
is not `None`, the literal sentinel `"NA"` otherwise. -/
def dataContent : Option (List (List String)) → String
  | some rows => rowsString rows
  | none => "NA"

/-- The document-shaping tail of `_get_relevant_documents`: the data
document (serialised rows or the `"NA"` sentinel, no metadata) followed by
the metadata document (empty content; `executionID`, `sqlQuery`,
`queryState`). -/
def shapeDocuments (executionID sqlQuery state : String)
    (athenaResults : Option (List (List String))) : List Document :=
  [{ page_content := dataContent athenaResults, metadata := [] },
   { page_content := ""
     metadata := [("executionID", executionID), ("sqlQuery", sqlQuery),
                  ("queryState", state)] }]

/-- Observable outcome of one retrieval call: the returned documents (or
the propagated exception), the number of status polls, the number of
fetch-results calls, the sleep durations, the final `state` variable and
the final `athenaResults` rows. -/
structure RunTrace where
  result : Except String (List Document)
  polls : Nat
  fetchCalls : Nat
  sleeps : List ℚ
  state : String
  rows : Option (List (List String))

/-- The execution lifecycle of `_get_relevant_documents` for a generated
SQL string `sqlQuery`: submit (propagating a submission error with no
polls and no fetch), run the polling loop from `initLoopState` with fuel
20, fetch the rows only when `fetch_results` ended true (propagating a
fetch error), and shape the two documents. -/
def runRetrieval (client : AthenaClient) (sqlQuery : String) : RunTrace :=
  match client.start_query_execution with
  | Except.error e =>
    { result := Except.error e, polls := 0, fetchCalls := 0, sleeps := [],
      state := "RUNNING", rows := none }
  | Except.ok executionID =>
    let ls := pollLoop client.get_query_execution 20 initLoopState
    if ls.fetch_results then
      match client.get_query_results with
      | Except.error e =>
        { result := Except.error e, polls := ls.polls, fetchCalls := 1,
          sleeps := ls.sleeps, state := ls.state, rows := none }
      | Except.ok rows =>
        { result := Except.ok (shapeDocuments executionID sqlQuery ls.state (some rows)),
          polls := ls.polls, fetchCalls := 1, sleeps := ls.sleeps,
          state := ls.state, rows := some rows }
    else
      { result := Except.ok (shapeDocuments executionID sqlQuery ls.state none),
        polls := ls.polls, fetchCalls := 0, sleeps := ls.sleeps,
        state := ls.state, rows := none }

/-- The state variable after a list of poll responses: a present field
overwrites it, an absent one keeps the previous value. -/
def lastObserved (responses : List (Option String)) (init : String) : String :=
  responses.foldl (fun st r => r.getD st) init

theorem lastObserved_nil (st : String) : lastObserved [] st = st := rfl

theorem lastObserved_cons (r : Option String) (rs : List (Option String)) (st : String) :
    lastObserved (r :: rs) st = lastObserved rs (r.getD st) := rfl

/-- Splitting off the first of `m + 1` consecutive poll responses. -/
theorem rangeMap_shift (poll : Nat → Option String) (pc m : Nat) :
    (List.range (m + 1)).map (fun i => poll (pc + i)) =
      poll pc :: (List.range m).map (fun i => poll (pc + 1 + i)) := by
  rw [List.range_succ_eq_map]
  simp only [List.map_cons, List.map_map, Nat.add_zero]
  congr 1
  refine List.map_congr_left fun i _ => ?_
  simp only [Function.comp_apply]
  congr 1
  omega

/-- Once `fetch_results` is true the loop body never runs again. -/
theorem pollLoop_fetch_done (poll : Nat → Option String) (n : Nat) (s : LoopState)
    (h : s.fetch_results = true) : pollLoop poll n s = s := by
  cases n with
  | zero => rfl
  | succ m => simp [pollLoop, h]

/-- The loop makes at most `n` further polls when entered with fuel `n`. -/
theorem pollLoop_polls_le (poll : Nat → Option String) :
    ∀ (n : Nat) (s : LoopState), (pollLoop poll n s).polls ≤ s.polls + n := by
  intro n
  induction n with
  | zero => intro s; simp [pollLoop]
  | succ m ih =>
    intro s
    by_cases hf : s.fetch_results
    · rw [pollLoop_fetch_done poll _ s hf]; omega
    · simp only [Bool.not_eq_true] at hf
      cases hp : poll s.polls with
      | some stv =>
        simp only [pollLoop, hf, Bool.false_eq_true, if_false, hp]
        refine le_trans (ih _) ?_
        simp only []
        omega
      | none =>
        simp only [pollLoop, hf, Bool.false_eq_true, if_false, hp]
        refine le_trans (ih _) ?_
        simp only []
        omega

/-- The poll counter never decreases across the loop. -/
theorem pollLoop_polls_mono (poll : Nat → Option String) :
    ∀ (n : Nat) (s : LoopState), s.polls ≤ (pollLoop poll n s).polls := by
  intro n
  induction n with
  | zero => intro s; simp [pollLoop]
  | succ m ih =>
    intro s
    by_cases hf : s.fetch_results
    · rw [pollLoop_fetch_done poll _ s hf]
    · simp only [Bool.not_eq_true] at hf
      cases hp : poll s.polls with
      | some stv =>
        simp only [pollLoop, hf, Bool.false_eq_true, if_false, hp]
        refine le_trans ?_ (ih _)
        simp only []
        omega
      | none =>
        simp only [pollLoop, hf, Bool.false_eq_true, if_false, hp]
        refine le_trans ?_ (ih _)
        simp only []
        omega

/-- A run whose next `n` poll responses never report `SUCCEEDED` executes
all `n` iterations: the state folds over the observed responses,
`fetch_results` stays false, the poll count grows by `n`, and the full
sleep schedule is appended. -/
theorem pollLoop_no_success (poll : Nat → Option String) :
    ∀ (n pc : Nat) (st : String) (sl : List ℚ),
      (∀ i, i < n → poll (pc + i) ≠ some "SUCCEEDED") →
      pollLoop poll n ⟨st, false, pc, sl⟩ =
        ⟨lastObserved ((List.range n).map (fun i => poll (pc + i))) st, false,
          pc + n, sl ++ sleepSchedule n⟩ := by
  intro n
  induction n with
  | zero =>
    intro pc st sl _
    simp [pollLoop, lastObserved, sleepSchedule]
  | succ m ih =>
    intro pc st sl h
    have h0 : poll pc ≠ some "SUCCEEDED" := by
      have := h 0 (Nat.succ_pos m)
      simpa using this
    have hshift : ∀ i, i < m → poll (pc + 1 + i) ≠ some "SUCCEEDED" := by
      intro i hi
      have hx := h (i + 1) (by omega)
      have e : pc + (i + 1) = pc + 1 + i := by omega
      rw [e] at hx
      exact hx
    rw [rangeMap_shift]
    cases hp : poll pc with
    | none =>
      rw [lastObserved_cons]
      simp only [Option.getD_none]
      simp only [pollLoop, Bool.false_eq_true, if_false, hp]
      rw [ih (pc + 1) st (sl ++ [sleepFor m]) hshift]
      simp only [LoopState.mk.injEq, List.append_assoc, List.singleton_append]
      refine ⟨trivial, trivial, by omega, by simp [sleepSchedule]⟩
    | some stv =>
      have hne : (stv == "SUCCEEDED") = false := by
        refine beq_eq_false_iff_ne.mpr ?_
        intro e
        exact h0 (by rw [hp, e])
      rw [lastObserved_cons]
      simp only [Option.getD_some]
      simp only [pollLoop, Bool.false_eq_true, if_false, hp, hne, Bool.or_false]
      rw [ih (pc + 1) stv (sl ++ [sleepFor m]) hshift]
      simp only [LoopState.mk.injEq, List.append_assoc, List.singleton_append]
      refine ⟨trivial, trivial, by omega, by simp [sleepSchedule]⟩

/-- A run whose `j`-th upcoming poll (zero-based, `j < n`) is the first to
report `SUCCEEDED` stops right there: `fetch_results` ends true, exactly
`j + 1` further polls happen, and the final state is `"SUCCEEDED"`. -/
theorem pollLoop_first_success (poll : Nat → Option String) :
    ∀ (n j pc : Nat) (st : String) (sl : List ℚ), j < n →
      (∀ i, i < j → poll (pc + i) ≠ some "SUCCEEDED") →
      poll (pc + j) = some "SUCCEEDED" →
      (pollLoop poll n ⟨st, false, pc, sl⟩).fetch_results = true ∧
      (pollLoop poll n ⟨st, false, pc, sl⟩).polls = pc + j + 1 ∧
      (pollLoop poll n ⟨st, false, pc, sl⟩).state = "SUCCEEDED" := by
  intro n
  induction n with
  | zero =>
    intro j pc st sl hj
    omega
  | succ m ih =>
    intro j pc st sl hj hbef hsucc
    cases j with
    | zero =>
      simp only [Nat.add_zero] at hsucc
      simp only [pollLoop, Bool.false_eq_true, if_false, hsucc, Bool.false_or]
      rw [pollLoop_fetch_done poll m _ (by simp)]
      simp
    | succ j' =>
      have h0 : poll pc ≠ some "SUCCEEDED" := by
        have := hbef 0 (Nat.succ_pos j')
        simpa using this
      have hbef' : ∀ i, i < j' → poll (pc + 1 + i) ≠ some "SUCCEEDED" := by
        intro i hi
        have hx := hbef (i + 1) (by omega)
        have e : pc + (i + 1) = pc + 1 + i := by omega
        rw [e] at hx
        exact hx
      have hsucc' : poll (pc + 1 + j') = some "SUCCEEDED" := by
        have e : pc + (j' + 1) = pc + 1 + j' := by omega
        rw [e] at hsucc
        exact hsucc
      cases hp : poll pc with
      | none =>
        simp only [pollLoop, Bool.false_eq_true, if_false, hp]
        have := ih j' (pc + 1) st (sl ++ [sleepFor m]) (by omega) hbef' hsucc'
        refine ⟨this.1, ?_, this.2.2⟩
        rw [this.2.1]
        omega
      | some stv =>
        have hne : (stv == "SUCCEEDED") = false := by
          refine beq_eq_false_iff_ne.mpr ?_
          intro e
          exact h0 (by rw [hp, e])
        simp only [pollLoop, Bool.false_eq_true, if_false, hp, hne, Bool.or_false]
        have := ih j' (pc + 1) stv (sl ++ [sleepFor m]) (by omega) hbef' hsucc'
        refine ⟨this.1, ?_, this.2.2⟩
        rw [this.2.1]
        omega

/-- The final state of any run of the loop is the fold of the responses
actually observed over the initial state. -/
theorem pollLoop_state_eq (poll : Nat → Option String) :
    ∀ (n : Nat) (s : LoopState),
      (pollLoop poll n s).state =
        lastObserved ((List.range ((pollLoop poll n s).polls - s.polls)).map
          (fun i => poll (s.polls + i))) s.state := by
  intro n
  induction n with
  | zero =>
    intro s
    simp [pollLoop, lastObserved]
  | succ m ih =>
    intro s
    by_cases hf : s.fetch_results
    · rw [pollLoop_fetch_done poll _ s hf]
      simp [lastObserved]
    · simp only [Bool.not_eq_true] at hf
      cases hp : poll s.polls with
      | some stv =>
        simp only [pollLoop, hf, Bool.false_eq_true, if_false, hp]
        set s' : LoopState :=
          { state := stv, fetch_results := false || (stv == "SUCCEEDED"),
            polls := s.polls + 1, sleeps := s.sleeps ++ [sleepFor m] } with hs'
        have hmono : s'.polls ≤ (pollLoop poll m s').polls := pollLoop_polls_mono poll m s'
        have hp1 : s'.polls = s.polls + 1 := rfl
        have hsplit : (pollLoop poll m s').polls - s.polls =
            ((pollLoop poll m s').polls - (s.polls + 1)) + 1 := by omega
        rw [hsplit, rangeMap_shift, lastObserved_cons, hp, Option.getD_some]
        have := ih s'
        rw [hp1] at this
        exact this
      | none =>
        simp only [pollLoop, hf, Bool.false_eq_true, if_false, hp]
        set s' : LoopState :=
          { state := s.state, fetch_results := false,
            polls := s.polls + 1, sleeps := s.sleeps ++ [sleepFor m] } with hs'
        have hmono : s'.polls ≤ (pollLoop poll m s').polls := pollLoop_polls_mono poll m s'
        have hp1 : s'.polls = s.polls + 1 := rfl
        have hsplit : (pollLoop poll m s').polls - s.polls =
            ((pollLoop poll m s').polls - (s.polls + 1)) + 1 := by omega
        rw [hsplit, rangeMap_shift, lastObserved_cons, hp, Option.getD_none]
        have := ih s'
        rw [hp1] at this
        exact this

/-- Folding responses none of which is `some v` over a start value other
than `v` never produces `v`. -/
theorem lastObserved_ne (v : String) :
    ∀ (rs : List (Option String)) (st : String), st ≠ v →
      (∀ r ∈ rs, r ≠ some v) → lastObserved rs st ≠ v := by
  intro rs
  induction rs with
  | nil => intro st hst _; exact hst
  | cons r rs ih =>
    intro st hst hrs
    rw [lastObserved_cons]
    refine ih _ ?_ fun r' hr' => hrs r' (List.mem_cons_of_mem r hr')
    cases r with
    | none => exact hst
    | some a =>
      intro e
      have ha : a = v := e
      exact hrs (some a) (List.mem_cons_self (some a) rs) (by rw [ha])

theorem string_join_cons (x : String) (l : List String) :
    String.join (x :: l) = x ++ String.join l := by
  apply String.ext
  simp

/-- The accumulated `value_str` is the concatenation, in order and with no
separator, of the serialised rows. -/
theorem rowsString_eq_join (rows : List (List String)) :
    rowsString rows = String.join (rows.map rowString) := by
  suffices h : ∀ a : String, rows.foldl (fun acc row => acc ++ rowString row) a =
      a ++ String.join (rows.map rowString) by
    have := h ""
    simpa [rowsString] using this
  induction rows with
  | nil => intro a; simp [String.join]
  | cons r rs ih =>
    intro a
    simp only [List.foldl_cons, List.map_cons]
    rw [ih, string_join_cons, String.append_assoc]

/-- Whenever the call returns normally, the returned documents are exactly
the shape of the final state and rows. -/
theorem runRetrieval_result_ok (c : AthenaClient) (q : String) (docs : List Document)
    (h : (runRetrieval c q).result = Except.ok docs) :
    ∃ id, c.start_query_execution = Except.ok id ∧
      docs = shapeDocuments id q (runRetrieval c q).state (runRetrieval c q).rows := by
  cases hs : c.start_query_execution with
  | error e =>
    rw [runRetrieval, hs] at h
    simp at h
  | ok id =>
    refine ⟨id, rfl, ?_⟩
    rw [runRetrieval, hs] at h ⊢
    by_cases hf : (pollLoop c.get_query_execution 20 initLoopState).fetch_results
    · simp only [hf, if_true] at h ⊢
      cases hr : c.get_query_results with
      | error e =>
        rw [hr] at h
        simp at h
      | ok rows =>
        rw [hr] at h
        exact (Except.ok.inj h).symm
    · simp only [Bool.not_eq_true] at hf
      simp only [hf, Bool.false_eq_true, if_false] at h ⊢
      exact (Except.ok.inj h).symm

/-- Full trace of a call whose submission succeeds and whose status
responses never report `SUCCEEDED`: all 20 polls run, no fetch happens,
and the shaped documents carry the `"NA"` sentinel. -/
theorem runRetrieval_no_success (c : AthenaClient) (q : String) (id : String)
    (hs : c.start_query_execution = Except.ok id)
    (hns : ∀ i, c.get_query_execution i ≠ some "SUCCEEDED") :
    runRetrieval c q =
      { result := Except.ok (shapeDocuments id q
          (lastObserved ((List.range 20).map c.get_query_execution) "RUNNING") none),
        polls := 20, fetchCalls := 0, sleeps := sleepSchedule 20,
        state := lastObserved ((List.range 20).map c.get_query_execution) "RUNNING",
        rows := none } := by
  have hloop : pollLoop c.get_query_execution 20 initLoopState =
      ⟨lastObserved ((List.range 20).map c.get_query_execution) "RUNNING", false,
        20, sleepSchedule 20⟩ := by
    have h0 := pollLoop_no_success c.get_query_execution 20 0 "RUNNING" []
      (fun i _ => hns (0 + i))
    simp only [Nat.zero_add, List.nil_append] at h0
    exact h0
  rw [runRetrieval, hs]
  simp [hloop]

/-- The poll count of a completed call is the loop's poll count, and a
fetch-results call is made exactly when the loop ended with
`fetch_results` true. -/
theorem runRetrieval_counters (c : AthenaClient) (q : String) (id : String)
    (hs : c.start_query_execution = Except.ok id) :
    (runRetrieval c q).polls = (pollLoop c.get_query_execution 20 initLoopState).polls ∧
    (runRetrieval c q).fetchCalls =
      (if (pollLoop c.get_query_execution 20 initLoopState).fetch_results then 1 else 0) ∧
    (runRetrieval c q).state = (pollLoop c.get_query_execution 20 initLoopState).state := by
  rw [runRetrieval, hs]
  by_cases hf : (pollLoop c.get_query_execution 20 initLoopState).fetch_results
  · simp only [hf, if_true]
    cases hr : c.get_query_results with
    | error e => exact ⟨rfl, rfl, rfl⟩
    | ok rows => exact ⟨rfl, rfl, rfl⟩
  · simp only [Bool.not_eq_true] at hf
    simp [hf]

/-- Folding a list of absent responses keeps the initial state. -/
theorem lastObserved_all_none :
    ∀ (rs : List (Option String)) (st : String), (∀ r ∈ rs, r = none) →
      lastObserved rs st = st := by
  intro rs
  induction rs with
  | nil => intro st _; rfl
  | cons r rs ih =>
    intro st h
    rw [lastObserved_cons, h r (List.mem_cons_self r rs), Option.getD_none]
    exact ih st fun r' hr' => h r' (List.mem_cons_of_mem r hr')

/-- C1: every retrieval call that reaches result shaping (submission
succeeded, no fatal fetch error) returns exactly two documents, the data
document first and the metadata document second, whatever the query
outcome was. -/
theorem claim1_two_documents (c : AthenaClient) (q : String) (docs : List Document)
    (h : (runRetrieval c q).result = Except.ok docs) :
    docs.length = 2 ∧
    ∃ id, c.start_query_execution = Except.ok id ∧
      docs = [{ page_content := dataContent (runRetrieval c q).rows, metadata := [] },
              { page_content := ""
                metadata := [("executionID", id), ("sqlQuery", q),
                             ("queryState", (runRetrieval c q).state)] }] := by
  obtain ⟨id, hs, hd⟩ := runRetrieval_result_ok c q docs h
  subst hd
  exact ⟨rfl, id, hs, rfl⟩

/-- C8: a failing submission call propagates out of the retrieval call: no
status poll and no fetch-results call happens, and no document list is
produced. -/
theorem claim8_submission_failure (c : AthenaClient) (q : String) (e : String)
    (h : c.start_query_execution = Except.error e) :
    (runRetrieval c q).result = Except.error e ∧
    (runRetrieval c q).polls = 0 ∧
    (runRetrieval c q).fetchCalls = 0 ∧
    ∀ docs : List Document, (runRetrieval c q).result ≠ Except.ok docs := by
  rw [runRetrieval, h]
  simp

/-- C9: whenever the call returns documents, the second one is the
metadata document: empty content, and exactly the keys `executionID`,
`sqlQuery` and `queryState`, holding the submission's execution id, the
generated SQL string, and the last state observed across this call's
polls. -/
theorem claim9_metadata_document (c : AthenaClient) (q : String) (docs : List Document)
    (h : (runRetrieval c q).result = Except.ok docs) :
    ∃ id, c.start_query_execution = Except.ok id ∧
      docs.get? 1 = some { page_content := ""
                           metadata := [("executionID", id), ("sqlQuery", q),
                                        ("queryState", (runRetrieval c q).state)] } ∧
      (runRetrieval c q).state =
        lastObserved (((List.range (runRetrieval c q).polls)).map c.get_query_execution)
          "RUNNING" := by
  obtain ⟨id, hs, hd⟩ := runRetrieval_result_ok c q docs h
  obtain ⟨hpolls, _, hstate⟩ := runRetrieval_counters c q id hs
  refine ⟨id, hs, ?_, ?_⟩
  · subst hd
    rfl
  · rw [hstate, hpolls]
    have hgen := pollLoop_state_eq c.get_query_execution 20 initLoopState
    simpa [initLoopState] using hgen

/-- C2: the attempt budget starts at 20, so every call — whatever its
status sequence — makes at most 20 status polls; and when submission
succeeds but no poll ever reports `SUCCEEDED`, exactly 20 polls happen
and the row set ends up null. -/
theorem claim2_polling_budget (c : AthenaClient) (q : String) :
    (runRetrieval c q).polls ≤ 20 ∧
    ((∀ i, c.get_query_execution i ≠ some "SUCCEEDED") →
      (∃ id, c.start_query_execution = Except.ok id) →
      (runRetrieval c q).polls = 20 ∧ (runRetrieval c q).rows = none) := by
  constructor
  · cases hs : c.start_query_execution with
    | error e =>
      rw [runRetrieval, hs]
      simp
    | ok id =>
      obtain ⟨hpolls, -, -⟩ := runRetrieval_counters c q id hs
      rw [hpolls]
      have hle := pollLoop_polls_le c.get_query_execution 20 initLoopState
      simpa [initLoopState] using hle
  · rintro hns ⟨id, hs⟩
    rw [runRetrieval_no_success c q id hs hns]
    exact ⟨rfl, rfl⟩

/-- C3: if the first `SUCCEEDED` report arrives on poll `k` (counting from
1, with `k ≤ 20`), the loop polls exactly `k` times and then exactly one
fetch-results call is made. -/
theorem claim3_success_on_poll_k (c : AthenaClient) (q : String) (k : Nat)
    (hk1 : 1 ≤ k) (hk2 : k ≤ 20)
    (hsub : ∃ id, c.start_query_execution = Except.ok id)
    (hfirst : c.get_query_execution (k - 1) = some "SUCCEEDED")
    (hbefore : ∀ i, i < k - 1 → c.get_query_execution i ≠ some "SUCCEEDED") :
    (runRetrieval c q).polls = k ∧ (runRetrieval c q).fetchCalls = 1 := by
  obtain ⟨id, hs⟩ := hsub
  obtain ⟨hpolls, hfetch, -⟩ := runRetrieval_counters c q id hs
  have hloop := pollLoop_first_success c.get_query_execution 20 (k - 1) 0 "RUNNING" []
    (by omega) (fun i hi => by simpa using hbefore i hi) (by simpa using hfirst)
  have hfr : (pollLoop c.get_query_execution 20 initLoopState).fetch_results = true :=
    hloop.1
  have hpl : (pollLoop c.get_query_execution 20 initLoopState).polls = 0 + (k - 1) + 1 :=
    hloop.2.1
  constructor
  · rw [hpolls, hpl]
    omega
  · rw [hfetch, hfr]
    simp

/-- C4: each iteration sleeps 3 units when the decremented budget is a
multiple of 5 and 0.5 units otherwise; a full 20-iteration run therefore
sleeps long exactly 4 times (at remaining budget 15, 10, 5 and 0, i.e.
iterations 5, 10, 15 and 20) and short the other 16 times. -/
theorem claim4_sleep_schedule (c : AthenaClient) (q : String)
    (hsub : ∃ id, c.start_query_execution = Except.ok id)
    (hns : ∀ i, c.get_query_execution i ≠ some "SUCCEEDED") :
    (runRetrieval c q).sleeps =
      (List.range 20).map (fun i => if (19 - i) % 5 = 0 then (3 : ℚ) else 1 / 2) ∧
    (runRetrieval c q).sleeps.count (3 : ℚ) = 4 ∧
    (runRetrieval c q).sleeps.count ((1 : ℚ) / 2) = 16 ∧
    ∀ i, i < 20 → ((runRetrieval c q).sleeps.get? i = some (3 : ℚ) ↔ (19 - i) % 5 = 0) := by
  obtain ⟨id, hs⟩ := hsub
  have hsl : (runRetrieval c q).sleeps = sleepSchedule 20 := by
    rw [runRetrieval_no_success c q id hs hns]
  rw [hsl]
  refine ⟨?_, ?_, ?_, ?_⟩
  · simp [sleepSchedule, sleepFor, List.range_succ]
  · simp [sleepSchedule, sleepFor, List.count_cons]
    norm_num
  · simp [sleepSchedule, sleepFor, List.count_cons]
    norm_num
  · intro i hi
    interval_cases i <;> simp [sleepSchedule, sleepFor] <;> norm_num

/-- The row-set serialisation as the spec words it: each row's cell
values joined by a comma and a space and wrapped in square brackets, the
row serialisations concatenated in order with no separator. -/
def specRowsJoin (rows : List (List String)) : String :=
  String.join (rows.map (fun row => "[" ++ String.intercalate ", " row ++ "]"))

/-- C5: for a non-null row set, the data document's content is the
separator-free concatenation of the rows, each serialised as its cells
joined by a comma-space and wrapped in square brackets; on the rows
`[["o1","100.0"], ["o2","250.0"]]` this gives `"[o1, 100.0][o2, 250.0]"`. -/
theorem claim5_row_serialisation (c : AthenaClient) (q : String) (docs : List Document)
    (rows : List (List String))
    (hres : (runRetrieval c q).result = Except.ok docs)
    (hrows : (runRetrieval c q).rows = some rows) :
    docs.head? = some { page_content := specRowsJoin rows, metadata := [] } ∧
    rowsString [["o1", "100.0"], ["o2", "250.0"]] = "[o1, 100.0][o2, 250.0]" := by
  obtain ⟨id, hs, hd⟩ := runRetrieval_result_ok c q docs hres
  subst hd
  constructor
  · rw [hrows]
    show some (Document.mk (dataContent (some rows)) []) =
      some (Document.mk (specRowsJoin rows) [])
    rw [show dataContent (some rows) = rowsString rows from rfl, rowsString_eq_join]
    rfl
  · rfl

/-- C6: budget exhaustion is a normal outcome: when submission succeeds
and no poll reports `SUCCEEDED`, the call still returns documents (no
exception), the row set is null, the data document carries the `"NA"`
sentinel, and the reported state is the last observed, non-`SUCCEEDED`
one. -/
theorem claim6_budget_exhaustion (c : AthenaClient) (q : String)
    (hsub : ∃ id, c.start_query_execution = Except.ok id)
    (hns : ∀ i, c.get_query_execution i ≠ some "SUCCEEDED") :
    ∃ docs, (runRetrieval c q).result = Except.ok docs ∧
      docs.head? = some { page_content := "NA", metadata := [] } ∧
      (runRetrieval c q).rows = none ∧
      (runRetrieval c q).state =
        lastObserved ((List.range 20).map c.get_query_execution) "RUNNING" ∧
      (runRetrieval c q).state ≠ "SUCCEEDED" := by
  obtain ⟨id, hs⟩ := hsub
  rw [runRetrieval_no_success c q id hs hns]
  refine ⟨_, rfl, rfl, rfl, rfl, ?_⟩
  refine lastObserved_ne "SUCCEEDED" _ "RUNNING" (by decide) ?_
  intro r hr
  simp only [List.mem_map] at hr
  obtain ⟨i, -, hi⟩ := hr
  rw [← hi]
  exact hns i

/-- C7: a malformed status response is tolerated: the iteration keeps the
previous state, raises nothing, and the loop continues; if every response
is malformed the call returns documents, reports the initial state
`"RUNNING"`, and still performs all 20 polls. -/
theorem claim7_malformed_tolerated (c : AthenaClient) (q : String)
    (hsub : ∃ id, c.start_query_execution = Except.ok id)
    (hmal : ∀ i, c.get_query_execution i = none) :
    (∀ (n : Nat) (s : LoopState), s.fetch_results = false →
      pollLoop c.get_query_execution (n + 1) s =
        pollLoop c.get_query_execution n
          { state := s.state, fetch_results := false, polls := s.polls + 1,
            sleeps := s.sleeps ++ [sleepFor n] }) ∧
    (∃ docs, (runRetrieval c q).result = Except.ok docs) ∧
    (runRetrieval c q).state = "RUNNING" ∧
    (runRetrieval c q).polls = 20 := by
  have hns : ∀ i, c.get_query_execution i ≠ some "SUCCEEDED" := by
    intro i h
    rw [hmal i] at h
    exact Option.noConfusion h
  obtain ⟨id, hs⟩ := hsub
  refine ⟨?_, ?_⟩
  · intro n s hf
    simp [pollLoop, hf, hmal s.polls]
  · rw [runRetrieval_no_success c q id hs hns]
    refine ⟨⟨_, rfl⟩, ?_, rfl⟩
    show lastObserved ((List.range 20).map c.get_query_execution) "RUNNING" = "RUNNING"
    refine lastObserved_all_none _ _ ?_
    intro r hr
    simp only [List.mem_map] at hr
    obtain ⟨i, -, hi⟩ := hr
    rw [← hi]
    exact hmal i

/-- C10: a successful fetch with zero rows yields an empty data document,
not the `"NA"` sentinel: the sentinel marks a null row set only. -/
theorem claim10_empty_rowset (c : AthenaClient) (q : String) (docs : List Document)
    (hres : (runRetrieval c q).result = Except.ok docs)
    (hrows : (runRetrieval c q).rows = some []) :
    docs.head? = some { page_content := "", metadata := [] } ∧
    dataContent (some ([] : List (List String))) = "" ∧
    dataContent none = "NA" := by
  obtain ⟨id, hs, hd⟩ := runRetrieval_result_ok c q docs hres
  subst hd
  refine ⟨?_, rfl, rfl⟩
  rw [hrows]
  rfl

/-- A client whose query never finishes: every poll reports `RUNNING`. -/
def clientNoSuccess : AthenaClient :=
  { start_query_execution := Except.ok "exec-1"
    get_query_execution := fun _ => some "RUNNING"
    get_query_results := Except.ok [] }

/-- A client whose every status response is malformed. -/
def clientMalformed : AthenaClient :=
  { start_query_execution := Except.ok "exec-2"
    get_query_execution := fun _ => none
    get_query_results := Except.ok [] }

/-- A client that succeeds on the first poll with two rows. -/
def clientQuick : AthenaClient :=
  { start_query_execution := Except.ok "exec-3"
    get_query_execution := fun _ => some "SUCCEEDED"
    get_query_results := Except.ok [["o1", "100.0"], ["o2", "250.0"]] }

/-- A client that reports `RUNNING` twice and `SUCCEEDED` on the third poll. -/
def clientThird : AthenaClient :=
  { start_query_execution := Except.ok "exec-4"
    get_query_execution := fun i => if i < 2 then some "RUNNING" else some "SUCCEEDED"
    get_query_results := Except.ok [] }

/-- A client that succeeds immediately but returns zero rows. -/
def clientEmpty : AthenaClient :=
  { start_query_execution := Except.ok "exec-5"
    get_query_execution := fun _ => some "SUCCEEDED"
    get_query_results := Except.ok [] }

/-- A client whose submission call raises a transport error. -/
def clientBadSubmit : AthenaClient :=
  { start_query_execution := Except.error "transport"
    get_query_execution := fun _ => some "RUNNING"
    get_query_results := Except.ok [] }

/-- The documents `clientQuick` produces. -/
def docsQuick : List Document :=
  [{ page_content := "[o1, 100.0][o2, 250.0]", metadata := [] },
   { page_content := ""
     metadata := [("executionID", "exec-3"), ("sqlQuery", "sql"),
                  ("queryState", "SUCCEEDED")] }]

/-- The documents `clientEmpty` produces. -/
def docsEmpty : List Document :=
  [{ page_content := "", metadata := [] },
   { page_content := ""
     metadata := [("executionID", "exec-5"), ("sqlQuery", "sql"),
                  ("queryState", "SUCCEEDED")] }]

theorem claim1_two_documents_witness :
    (runRetrieval clientQuick "sql").result = Except.ok docsQuick ∧
    docsQuick.length = 2 := by
  have h : (runRetrieval clientQuick "sql").result = Except.ok docsQuick := by rfl
  exact ⟨h, (claim1_two_documents clientQuick "sql" docsQuick h).1⟩

theorem claim2_polling_budget_witness :
    (∀ i, clientNoSuccess.get_query_execution i ≠ some "SUCCEEDED") ∧
    (runRetrieval clientNoSuccess "sql").polls ≤ 20 ∧
    (runRetrieval clientNoSuccess "sql").polls = 20 ∧
    (runRetrieval clientNoSuccess "sql").rows = none := by
  have hns : ∀ i, clientNoSuccess.get_query_execution i ≠ some "SUCCEEDED" := by
    intro i
    simp [clientNoSuccess]
  have h := claim2_polling_budget clientNoSuccess "sql"
  exact ⟨hns, h.1, h.2 hns ⟨"exec-1", rfl⟩⟩

theorem claim3_success_on_poll_k_witness :
    (runRetrieval clientThird "sql").polls = 3 ∧
    (runRetrieval clientThird "sql").fetchCalls = 1 :=
  claim3_success_on_poll_k clientThird "sql" 3 (by decide) (by decide)
    ⟨"exec-4", rfl⟩ (by decide) (by decide)

theorem claim4_sleep_schedule_witness :
    (runRetrieval clientNoSuccess "sql").sleeps =
      (List.range 20).map (fun i => if (19 - i) % 5 = 0 then (3 : ℚ) else 1 / 2) ∧
    (runRetrieval clientNoSuccess "sql").sleeps.count (3 : ℚ) = 4 ∧
    (runRetrieval clientNoSuccess "sql").sleeps.count ((1 : ℚ) / 2) = 16 := by
  have hns : ∀ i, clientNoSuccess.get_query_execution i ≠ some "SUCCEEDED" := by
    intro i
    simp [clientNoSuccess]
  have h := claim4_sleep_schedule clientNoSuccess "sql" ⟨"exec-1", rfl⟩ hns
  exact ⟨h.1, h.2.1, h.2.2.1⟩

theorem claim5_row_serialisation_witness :
    docsQuick.head? =
      some (Document.mk (specRowsJoin [["o1", "100.0"], ["o2", "250.0"]]) []) ∧
    rowsString [["o1", "100.0"], ["o2", "250.0"]] = "[o1, 100.0][o2, 250.0]" :=
  claim5_row_serialisation clientQuick "sql" docsQuick
    [["o1", "100.0"], ["o2", "250.0"]] rfl rfl

theorem claim6_budget_exhaustion_witness :
    ∃ docs, (runRetrieval clientNoSuccess "sql").result = Except.ok docs ∧
      docs.head? = some (Document.mk "NA" []) ∧
      (runRetrieval clientNoSuccess "sql").rows = none ∧
      (runRetrieval clientNoSuccess "sql").state =
        lastObserved ((List.range 20).map clientNoSuccess.get_query_execution)
          "RUNNING" ∧
      (runRetrieval clientNoSuccess "sql").state ≠ "SUCCEEDED" :=
  claim6_budget_exhaustion clientNoSuccess "sql" ⟨"exec-1", rfl⟩
    (fun i => by simp [clientNoSuccess])

theorem claim7_malformed_tolerated_witness :
    (∃ docs, (runRetrieval clientMalformed "sql").result = Except.ok docs) ∧
    (runRetrieval clientMalformed "sql").state = "RUNNING" ∧
    (runRetrieval clientMalformed "sql").polls = 20 :=
  (claim7_malformed_tolerated clientMalformed "sql" ⟨"exec-2", rfl⟩ fun _ => rfl).2

theorem claim8_submission_failure_witness :
    (runRetrieval clientBadSubmit "sql").result = Except.error "transport" ∧
    (runRetrieval clientBadSubmit "sql").polls = 0 ∧
    (runRetrieval clientBadSubmit "sql").fetchCalls = 0 ∧
    ∀ docs : List Document, (runRetrieval clientBadSubmit "sql").result ≠ Except.ok docs :=
  claim8_submission_failure clientBadSubmit "sql" "transport" rfl

theorem claim9_metadata_document_witness :
    ∃ id, clientQuick.start_query_execution = Except.ok id ∧
      docsQuick.get? 1 = some (Document.mk ""
        [("executionID", id), ("sqlQuery", "sql"),
         ("queryState", (runRetrieval clientQuick "sql").state)]) ∧
      (runRetrieval clientQuick "sql").state =
        lastObserved (((List.range (runRetrieval clientQuick "sql").polls)).map
          clientQuick.get_query_execution) "RUNNING" :=
  claim9_metadata_document clientQuick "sql" docsQuick rfl

theorem claim10_empty_rowset_witness :
    docsEmpty.head? = some (Document.mk "" []) ∧
    dataContent (some ([] : List (List String))) = "" ∧
    dataContent none = "NA" :=
  claim10_empty_rowset clientEmpty "sql" docsEmpty rfl rfl
